import Mathlib

/-!
Verification of the crankTUI protocol/telemetry engine and SIM-mode control
loop. Real numbers of the Python source are modelled as rationals; machine
integers as `Nat`/`Int` with explicit wraparound arithmetic where the source
performs it; fallible paths as `Option`/`Except`.
-/

namespace CrankTUI

/-! ### Physics model (src/cranktui/simulation/physics.py) -/

def GRAVITY : ℚ := 981 / 100

def AIR_DENSITY : ℚ := 1225 / 1000

def ROLLING_RESISTANCE : ℚ := 4 / 1000

def DRAG_COEFFICIENT_AREA : ℚ := 3 / 10

/-- One run of the Newton loop of `power_to_speed`, with explicit fuel for the
`for _ in range(20)` bound. Mirrors the body exactly: early exit when the
power residual is below 0.1 W, the Newton update guarded by a near-zero
derivative test, and the clamp of the speed to [0.1, 30.0] after every
iteration. -/
def power_to_speed_go (power_w grade total_mass_kg : ℚ) : ℕ → ℚ → ℚ
  | 0, speed => speed
  | n + 1, speed =>
    let force_gravity := total_mass_kg * GRAVITY * grade
    let force_rolling := ROLLING_RESISTANCE * total_mass_kg * GRAVITY
    let force_air := (1 / 2) * DRAG_COEFFICIENT_AREA * AIR_DENSITY * speed * speed
    let total_force := force_gravity + force_rolling + force_air
    let power_calculated := total_force * speed
    let power_error := power_calculated - power_w
    if |power_error| < 1 / 10 then speed
    else
      let dforce_dspeed := AIR_DENSITY * DRAG_COEFFICIENT_AREA * speed
      let dpower_dspeed := total_force + speed * dforce_dspeed
      let speed1 := if 1 / 100 < |dpower_dspeed| then speed - power_error / dpower_dspeed else speed
      let speed2 := max (1 / 10) (min speed1 30)
      power_to_speed_go power_w grade total_mass_kg n speed2

/-- `power_to_speed(power_w, grade_pct, total_mass_kg)`: returns 0.0 for
non-positive power, otherwise runs at most 20 Newton iterations starting
from 5.0 m/s and returns `max(0.0, speed)`. -/
def power_to_speed (power_w grade_pct total_mass_kg : ℚ) : ℚ :=
  if power_w ≤ 0 then 0
  else max 0 (power_to_speed_go power_w (grade_pct / 100) total_mass_kg 20 5)

/-- `power_to_speed_kmh`: unit conversion from m/s to km/h. -/
def power_to_speed_kmh (power_w grade_pct total_mass_kg : ℚ) : ℚ :=
  power_to_speed power_w grade_pct total_mass_kg * (36 / 10)

end CrankTUI

namespace CrankTUI

/-! ### Vendor command encoders (src/cranktui/ble/client.py) -/

/-- The u16 value encoded by `BLEClient.set_gradient`: the grade is clamped to
[-20, 20] and the value is `int((grade/100 + 1.0) * 32768.0)`. Python `int()`
truncates toward zero; the operand is at least 0.8 × 32768 > 0 here, so
truncation coincides with the integer quotient of the (positive) numerator by
the denominator. -/
def set_gradient_encoded (grade_percent : ℚ) : ℤ :=
  let g := max (-20) (min 20 grade_percent)
  let x : ℚ := (g / 100 + 1) * 32768
  x.num / (x.den : ℤ)

/-- The 3-byte gradient command written by `set_gradient`:
`[0x46, encoded & 0xFF, (encoded >> 8) & 0xFF]`. -/
def set_gradient_command (grade_percent : ℚ) : List ℕ :=
  let encoded := (set_gradient_encoded grade_percent).toNat
  [0x46, encoded % 256, (encoded / 256) % 256]

/-- The rounding the spec attributes to the encoder:
`round((grade/100 + 1.0) * 32768)` (round half up; at the inputs of interest
the fraction is 0.4 or 0.6, where every rounding convention agrees). -/
def spec_gradient_encoded (grade_percent : ℚ) : ℤ :=
  let g := max (-20) (min 20 grade_percent)
  let x : ℚ := (g / 100 + 1) * 32768 + 1 / 2
  x.num / (x.den : ℤ)

/-! ### Telemetry decoders and session merge state (src/cranktui/ble/client.py) -/

/-- Little-endian 16-bit value from two bytes of a notification frame
(`int.from_bytes(data[i:i+2], byteorder="little")`). -/
def le16 (data : List ℕ) (i : ℕ) : ℕ :=
  data.getD i 0 + 256 * data.getD (i + 1) 0

/-- Little-endian 32-bit value from four bytes of a notification frame. -/
def le32 (data : List ℕ) (i : ℕ) : ℕ :=
  data.getD i 0 + 256 * data.getD (i + 1) 0 + 65536 * data.getD (i + 2) 0 +
    16777216 * data.getD (i + 3) 0

/-- Interpretation of a 16-bit value as a signed 16-bit integer
(`int.from_bytes(..., signed=True)`). -/
def sint16 (n : ℕ) : ℤ :=
  if n < 32768 then (n : ℤ) else (n : ℤ) - 65536

/-- One normalized telemetry sample, as the dict passed to the `on_reading`
callback. -/
structure Reading where
  power_w : ℚ
  cadence_rpm : ℚ
  speed_kmh : ℚ
  distance_m : ℚ
deriving DecidableEq

/-- The per-connection decoder state of `BLEClient`: the rolling
wheel-revolution counters used by the CSC decoder and the latest-value
aggregate merged across characteristics. -/
structure CodecState where
  last_wheel_revs : Option ℕ
  last_wheel_time : Option ℕ
  latest_power_w : ℚ
  latest_speed_kmh : ℚ
  latest_cadence_rpm : ℚ
deriving DecidableEq

/-- The decoder state right after `BLEClient.__init__`. -/
def CodecState.init : CodecState :=
  ⟨none, none, 0, 0, 0⟩

/-- Default wheel circumference in metres (`self._wheel_circumference_m`). -/
def wheel_circumference_m : ℚ := 2105 / 1000

/-- `BLEClient._handle_wahoo_data`: the vendor-proprietary frame decoder.
Frames shorter than 6 bytes are discarded. The published reading is built
solely from the frame itself (power u16 LE, cadence u16 LE, speed u16 LE
divided by 100, distance 0.0); the `_latest_*` merge state is not consulted
and not updated. -/
def handle_wahoo_data (s : CodecState) (data : List ℕ) : CodecState × Option Reading :=
  if data.length < 6 then (s, none)
  else
    let power := le16 data 0
    let cadence := le16 data 2
    let speed_raw := le16 data 4
    let speed_kmh : ℚ := (speed_raw : ℚ) / 100
    (s, some ⟨(power : ℚ), (cadence : ℚ), speed_kmh, 0⟩)

/-- `BLEClient._handle_cycling_power_data`: the SIG Cycling Power Measurement
decoder (0x2A63). Frames shorter than 4 bytes are discarded. Power is the
signed 16-bit LE value at bytes 2..3; the flag-dependent offset walking in
the source only skips optional fields and has no effect on the published
reading or on the state, so it is not represented. The published reading
merges the new power with the retained latest speed and cadence. -/
def handle_cycling_power_data (s : CodecState) (data : List ℕ) :
    CodecState × Option Reading :=
  if data.length < 4 then (s, none)
  else
    let power : ℚ := (sint16 (le16 data 2) : ℚ)
    let s1 : CodecState := { s with latest_power_w := power }
    (s1, some ⟨s1.latest_power_w, s1.latest_cadence_rpm, s1.latest_speed_kmh, 0⟩)

/-- `BLEClient._handle_csc_measurement_data`: the SIG CSC Measurement decoder
(0x2A5B). Byte 0 is the flags; when bit 0 (wheel revolution data present) is
set and at least 6 further bytes are available, the cumulative wheel
revolutions (u32 LE) and last wheel event time (u16 LE, 1/1024 s) are read.
Speed is derived only when a prior sample exists, with +65536 correction of a
negative 16-bit time difference, and only when both deltas are positive; the
rolling counters are always stored. A reading is published only when the
computed speed is positive, merging it with the retained latest power and
cadence. -/
def handle_csc_measurement_data (s : CodecState) (data : List ℕ) :
    CodecState × Option Reading :=
  if data.length < 1 then (s, none)
  else
    let flags := data.getD 0 0
    if flags % 2 = 1 ∧ 7 ≤ data.length then
      let cumulative_wheel_revs := le32 data 1
      let last_wheel_event_time := le16 data 5
      let speed_kmh : ℚ :=
        match s.last_wheel_revs, s.last_wheel_time with
        | some r0, some t0 =>
          let wheel_revs_delta : ℤ := (cumulative_wheel_revs : ℤ) - (r0 : ℤ)
          let time_delta0 : ℤ := (last_wheel_event_time : ℤ) - (t0 : ℤ)
          let time_delta : ℤ := if time_delta0 < 0 then time_delta0 + 65536 else time_delta0
          if 0 < time_delta ∧ 0 < wheel_revs_delta then
            let time_delta_s : ℚ := (time_delta : ℚ) / 1024
            let revs_per_sec : ℚ := (wheel_revs_delta : ℚ) / time_delta_s
            let distance_per_sec : ℚ := revs_per_sec * wheel_circumference_m
            distance_per_sec * (36 / 10)
          else 0
        | _, _ => 0
      let s1 : CodecState :=
        { s with last_wheel_revs := some cumulative_wheel_revs,
                 last_wheel_time := some last_wheel_event_time }
      if 0 < speed_kmh then
        let s2 : CodecState := { s1 with latest_speed_kmh := speed_kmh }
        (s2, some ⟨s2.latest_power_w, s2.latest_cadence_rpm, s2.latest_speed_kmh, 0⟩)
      else (s1, none)
    else (s, none)

/-! ### Connection state machine (src/cranktui/ble/client.py) -/

def FTMS_SERVICE_UUID : String := "00001826-0000-1000-8000-00805f9b34fb"

def WAHOO_SERVICE_UUID : String := "a026ee01-0a7d-4ab3-97fa-f1500f9feb8b"

/-- The connection-related fields of `BLEClient`. `client = none` models
`self._client is None`; `client = some b` models a transport object whose
`is_connected` property is `b` (a live connection can drop externally, making
`b` false while the object is still held). -/
structure ClientState where
  client : Option Bool
  device_address : Option String
  device_name : Option String
  protocol : Option String
deriving DecidableEq

/-- `BLEClient.is_connected`: client present and transport connected. -/
def ClientState.is_connected (s : ClientState) : Bool :=
  s.client = some true

/-- The state of a `BLEClient` right after `__init__`. -/
def ClientState.init : ClientState :=
  ⟨none, none, none, none⟩

/-- `BLEClient.disconnect`: when a live connection exists, the transport
disconnect is attempted and — whether it succeeds or raises (the `raised`
argument) — the `finally` block clears the client, address and name. When no
live connection exists the method returns without touching any state. -/
def disconnect (s : ClientState) (raised : Bool) : ClientState :=
  if s.is_connected then
    let _ := raised
    { s with client := none, device_address := none, device_name := none }
  else s

/-- `BLEClient.connect`, modelled on the path where the transport connects
successfully and service discovery yields `services` (bleak compares service
UUIDs case-insensitively; UUIDs are modelled as their lowercase form). Any
existing live connection is torn down first; the address and name are stored;
then protocol selection runs: FTMS service present selects `"ftms"`, else the
Wahoo proprietary service selects `"wahoo"`, else the client disconnects and
the call fails. Returns the new state, the success flag and the error
message. -/
def connect (s : ClientState) (address name : String) (services : List String) :
    ClientState × Bool × String :=
  let s1 := if s.is_connected then disconnect s false else s
  let s2 : ClientState := { s1 with client := some true }
  let s3 : ClientState := { s2 with device_address := some address, device_name := some name }
  if FTMS_SERVICE_UUID ∈ services then
    ({ s3 with protocol := some "ftms" }, true, "")
  else if WAHOO_SERVICE_UUID ∈ services then
    ({ s3 with protocol := some "wahoo" }, true, "")
  else
    (disconnect s3 false, false, "No FTMS or Wahoo service found")

/-! ### Shared ride state (src/cranktui/state/state.py) -/

/-- The `RideMetrics` dataclass: exactly its fields, with floats as rationals
and `start_time` as an optional timestamp on the same clock as the `now`
arguments below. -/
structure RideMetrics where
  speed_kmh : ℚ
  power_w : ℚ
  cadence_rpm : ℚ
  heart_rate_bpm : ℚ
  distance_m : ℚ
  elapsed_time_s : ℚ
  grade_pct : ℚ
  start_time : Option ℚ
  is_recording : Bool
  mode : String
deriving DecidableEq

/-- The default-constructed `RideMetrics()`. -/
def RideMetrics.init : RideMetrics :=
  ⟨0, 0, 0, 0, 0, 0, 0, none, false, "DEMO"⟩

/-- The attribute names of the `RideMetrics` dataclass; `hasattr(metrics, k)`
is membership in this list. -/
def rideMetricsFields : List String :=
  ["speed_kmh", "power_w", "cadence_rpm", "heart_rate_bpm", "distance_m",
   "elapsed_time_s", "grade_pct", "start_time", "is_recording", "mode"]

/-- Python attribute read of a float-valued field of `RideMetrics`
(`getattr(metrics, k)`); `none` models an `AttributeError` for a name that is
not a field. The three non-float fields carry no numeric value and are not
read through this accessor by any code modelled here. -/
def getFloatAttr (m : RideMetrics) (k : String) : Option ℚ :=
  if k = "speed_kmh" then some m.speed_kmh
  else if k = "power_w" then some m.power_w
  else if k = "cadence_rpm" then some m.cadence_rpm
  else if k = "heart_rate_bpm" then some m.heart_rate_bpm
  else if k = "distance_m" then some m.distance_m
  else if k = "elapsed_time_s" then some m.elapsed_time_s
  else if k = "grade_pct" then some m.grade_pct
  else none

/-- Python attribute write `setattr(metrics, k, v)` for a float value; only
ever executed by `update_metrics` under a `hasattr` guard. The three
non-float fields are never written with a float by the code modelled here,
so they are left unchanged. -/
def setFloatField (m : RideMetrics) (k : String) (v : ℚ) : RideMetrics :=
  if k = "speed_kmh" then { m with speed_kmh := v }
  else if k = "power_w" then { m with power_w := v }
  else if k = "cadence_rpm" then { m with cadence_rpm := v }
  else if k = "heart_rate_bpm" then { m with heart_rate_bpm := v }
  else if k = "distance_m" then { m with distance_m := v }
  else if k = "elapsed_time_s" then { m with elapsed_time_s := v }
  else if k = "grade_pct" then { m with grade_pct := v }
  else m

/-- The mutable state of `RideState`: the metrics and the
`_last_update_time` used for distance integration. -/
structure RideStateM where
  metrics : RideMetrics
  last_update_time : Option ℚ
deriving DecidableEq

/-- `RideState.update_metrics(**kwargs)` at wall-clock time `now`. In source
order: distance integration when `speed_kmh` is among the keywords and a
previous update time exists; elapsed-time recomputation when a start time is
set; then each keyword is stored if and only if `hasattr(self._metrics, key)`
holds, silently skipped otherwise; finally the update time is recorded.
Keyword arguments form a Python dict, so keys are unique. -/
def update_metrics (s : RideStateM) (kwargs : List (String × ℚ)) (now : ℚ) :
    RideStateM :=
  let m := s.metrics
  let m :=
    match kwargs.lookup "speed_kmh", s.last_update_time with
    | some v, some t =>
      { m with distance_m := m.distance_m + v / (36 / 10) * (now - t) }
    | _, _ => m
  let m :=
    match m.start_time with
    | some st => { m with elapsed_time_s := now - st }
    | none => m
  let m := kwargs.foldl
    (fun acc kv => if kv.1 ∈ rideMetricsFields then setFloatField acc kv.1 kv.2 else acc) m
  ⟨m, some now⟩

/-! ### SIM-mode control loop (src/cranktui/screens/riding.py) -/

/-- `RidingScreen._smooth_gradient`: move from `current` toward `target` by at
most `max_change` per call; jump straight to `target` when it is within
`max_change`. -/
def smooth_gradient (target current max_change : ℚ) : ℚ :=
  let diff := target - current
  if |diff| ≤ max_change then target
  else if 0 < diff then current + max_change
  else current - max_change

/-- One iteration of `RidingScreen._sim_mode_loop`, up to the computation of
the gradient that would be sent to the trainer. The loop body first reads
`metrics.distance_m`, `metrics.speed_kmh`, `metrics.power_w` and
`metrics.resistance_scale` from the state snapshot — the latter is an
attribute access, modelled through `getFloatAttr`, which fails when the field
does not exist — then exits when the mode is no longer `"SIM"` (`ok none`),
and otherwise smooths the route's target grade and applies the resistance
scale, yielding `ok (some (smoothed, scaled))` where `scaled` is the value
passed to `set_gradient` and written back as `grade_pct`. `target_for` is the
route-derived `self._calculate_grade` collaborator. -/
def sim_mode_loop_tick (metrics : RideMetrics) (target_for : ℚ → ℚ)
    (last_gradient : ℚ) : Except String (Option (ℚ × ℚ)) :=
  let distance_m := metrics.distance_m
  match getFloatAttr metrics "resistance_scale" with
  | none => Except.error "AttributeError: resistance_scale"
  | some resistance_scale =>
    if metrics.mode ≠ "SIM" then Except.ok none
    else
      let target_grade := target_for distance_m
      let smoothed_grade := smooth_gradient target_grade last_gradient 1
      let scaled_grade := smoothed_grade * resistance_scale
      Except.ok (some (smoothed_grade, scaled_grade))

/-- The sequence of smoothed gradients held in `self.last_gradient` across
SIM-loop ticks: initialized to 0.0 by `_start_sim_mode`, and on each tick
updated to `smooth_gradient(target, last, 1.0)` for the tick's route-derived
target grade. `targets t` is the target grade seen at tick `t`, arbitrary to
cover every route. -/
def sim_gradient_seq (targets : ℕ → ℚ) : ℕ → ℚ
  | 0 => 0
  | t + 1 => smooth_gradient (targets t) (sim_gradient_seq targets t) 1

/-- A stale client state: the transport object is still held but the
connection has dropped (`is_connected` false), while a device address and
name from the earlier successful connect are still stored. -/
def c9_stale_state : ClientState :=
  ⟨some false, some "AA:BB:CC:DD:EE:FF", some "KICKR SNAP", none⟩

/-! ## Claims -/

/-- Helper: the CSC decoder on a frame with wheel data, a prior sample and
positive deltas publishes the finite-difference speed merged with the
retained power and cadence, and rolls the counters forward. -/
theorem csc_publish_formula (s : CodecState) (data : List ℕ) (r0 t0 : ℕ)
    (hr : s.last_wheel_revs = some r0) (ht : s.last_wheel_time = some t0)
    (hlen : 7 ≤ data.length) (hflag : data.getD 0 0 % 2 = 1)
    (rd td : ℤ)
    (hrdeq : rd = (le32 data 1 : ℤ) - (r0 : ℤ))
    (htdeq : td = if (le16 data 5 : ℤ) - (t0 : ℤ) < 0
        then (le16 data 5 : ℤ) - (t0 : ℤ) + 65536 else (le16 data 5 : ℤ) - (t0 : ℤ))
    (hrdpos : 0 < rd) (htdpos : 0 < td) :
    handle_csc_measurement_data s data =
      ({ s with last_wheel_revs := some (le32 data 1),
                last_wheel_time := some (le16 data 5),
                latest_speed_kmh :=
                  (rd : ℚ) / ((td : ℚ) / 1024) * wheel_circumference_m * (36 / 10) },
       some ⟨s.latest_power_w, s.latest_cadence_rpm,
             (rd : ℚ) / ((td : ℚ) / 1024) * wheel_circumference_m * (36 / 10), 0⟩) := by
  have hrdq : (0 : ℚ) < (rd : ℚ) := by exact_mod_cast hrdpos
  have htdq : (0 : ℚ) < ((td : ℚ) / 1024) := by
    have htd0 : (0 : ℚ) < (td : ℚ) := by exact_mod_cast htdpos
    positivity
  have hspeed : (0 : ℚ) <
      (rd : ℚ) / ((td : ℚ) / 1024) * wheel_circumference_m * (36 / 10) := by
    have hw : (0 : ℚ) < wheel_circumference_m := by norm_num [wheel_circumference_m]
    exact mul_pos (mul_pos (div_pos hrdq htdq) hw) (by norm_num)
  simp only [handle_csc_measurement_data, hr, ht]
  rw [if_neg (show ¬ data.length < 1 by omega)]
  rw [if_pos ⟨hflag, hlen⟩]
  rw [← htdeq, ← hrdeq]
  rw [if_pos (show 0 < td ∧ 0 < rd from ⟨htdpos, hrdpos⟩)]
  rw [if_pos hspeed]

/-- Helper: the Cycling Power decoder either discards the frame or merges the
decoded signed power with the retained speed and cadence. -/
theorem handle_cycling_power_data_cases (s : CodecState) (data : List ℕ) :
    handle_cycling_power_data s data = (s, none) ∨
    handle_cycling_power_data s data =
      ({ s with latest_power_w := (sint16 (le16 data 2) : ℚ) },
       some ⟨(sint16 (le16 data 2) : ℚ), s.latest_cadence_rpm, s.latest_speed_kmh, 0⟩) := by
  unfold handle_cycling_power_data
  split_ifs with h
  · exact Or.inl rfl
  · exact Or.inr rfl

/-- Helper: the vendor decoder either discards the frame or publishes the
frame's own three u16 fields, leaving the state untouched. -/
theorem handle_wahoo_data_cases (s : CodecState) (data : List ℕ) :
    handle_wahoo_data s data = (s, none) ∨
    handle_wahoo_data s data =
      (s, some ⟨(le16 data 0 : ℚ), (le16 data 2 : ℚ), (le16 data 4 : ℚ) / 100, 0⟩) := by
  unfold handle_wahoo_data
  split_ifs with h
  · exact Or.inl rfl
  · exact Or.inr rfl

/-- Helper: a CSC decoder step from a state with non-negative retained speed
and cadence publishes only non-negative cadence, speed and distance, and
preserves the non-negativity of the retained fields. -/
theorem csc_step_nonneg (s : CodecState) (data : List ℕ)
    (hs : 0 ≤ s.latest_speed_kmh) (hc : 0 ≤ s.latest_cadence_rpm) :
    (∀ r : Reading, (handle_csc_measurement_data s data).2 = some r →
      0 ≤ r.cadence_rpm ∧ 0 ≤ r.speed_kmh ∧ 0 ≤ r.distance_m) ∧
    0 ≤ (handle_csc_measurement_data s data).1.latest_speed_kmh ∧
    0 ≤ (handle_csc_measurement_data s data).1.latest_cadence_rpm := by
  simp only [handle_csc_measurement_data]
  split_ifs with h1 h2 h3
  · exact ⟨fun r h => by simp at h, hs, hc⟩
  · refine ⟨fun r h => ?_, le_of_lt h3, hc⟩
    simp only [Option.some.injEq] at h
    subst h
    exact ⟨hc, le_of_lt h3, le_refl 0⟩
  · exact ⟨fun r h => by simp at h, hs, hc⟩
  · exact ⟨fun r h => by simp at h, hs, hc⟩

/-- C1: `set_gradient` clamps the grade to [-20, 20] and emits
`[0x46, low, high]`, but the u16 value is `int(...)` (truncation), not
`round(...)` as the claim and the encoder's own comment state: at +20% the
code produces 39321 where its comment and the spec say 39322 (the -20% and
0% values agree because their fractional parts are below one half). -/
theorem c1_gradient_encoding_truncates :
    set_gradient_encoded (-20) = 26214 ∧
    set_gradient_encoded 0 = 32768 ∧
    set_gradient_encoded 20 = 39321 ∧
    spec_gradient_encoded 20 = 39322 ∧
    set_gradient_command 20 = [0x46, 0x99, 0x99] :=
  of_decide_eq_true (by with_unfolding_all rfl)

/-- C2: every SIM-loop tick reads `metrics.resistance_scale` from the state
snapshot before anything is sent to the trainer, but `RideMetrics` has no
`resistance_scale` field, so the read raises `AttributeError` and the tick
fails for every possible metrics snapshot: no scaled gradient is ever sent. -/
theorem c2_sim_tick_attribute_error (metrics : RideMetrics) (target_for : ℚ → ℚ)
    (last_gradient : ℚ) :
    getFloatAttr metrics "resistance_scale" = none ∧
    sim_mode_loop_tick metrics target_for last_gradient =
      Except.error "AttributeError: resistance_scale" :=
  ⟨rfl, rfl⟩

/-- C3: the CSC decoder derives speed only when a prior wheel-revolution
sample exists. With no prior sample the notification publishes nothing and
leaves the retained speed unchanged; with a prior sample, wheel data present,
`revs_delta > 0` and wraparound-corrected `time_delta > 0`, the published
speed is `revs_delta / (time_delta/1024) × 2.105 × 3.6` merged with the
retained power and cadence. -/
theorem c3_csc_speed_requires_two_samples (s : CodecState) (data : List ℕ) :
    (s.last_wheel_revs = none →
      (handle_csc_measurement_data s data).2 = none ∧
      (handle_csc_measurement_data s data).1.latest_speed_kmh = s.latest_speed_kmh) ∧
    (∀ r0 t0 : ℕ, s.last_wheel_revs = some r0 → s.last_wheel_time = some t0 →
      7 ≤ data.length → data.getD 0 0 % 2 = 1 →
      ∀ rd td : ℤ, rd = (le32 data 1 : ℤ) - (r0 : ℤ) →
        td = (if (le16 data 5 : ℤ) - (t0 : ℤ) < 0
          then (le16 data 5 : ℤ) - (t0 : ℤ) + 65536 else (le16 data 5 : ℤ) - (t0 : ℤ)) →
        0 < rd → 0 < td →
        (handle_csc_measurement_data s data).2 =
          some ⟨s.latest_power_w, s.latest_cadence_rpm,
                (rd : ℚ) / ((td : ℚ) / 1024) * wheel_circumference_m * (36 / 10), 0⟩) := by
  constructor
  · intro h
    simp only [handle_csc_measurement_data, h]
    split_ifs with h1 h2 h3
    · exact ⟨rfl, rfl⟩
    · exact absurd h3 (by norm_num)
    · exact ⟨rfl, rfl⟩
    · exact ⟨rfl, rfl⟩
  · intro r0 t0 hr ht hlen hflag rd td hrdeq htdeq hrdpos htdpos
    rw [csc_publish_formula s data r0 t0 hr ht hlen hflag rd td hrdeq htdeq hrdpos htdpos]

/-- C3 witness: a first notification into a fresh state publishes nothing;
a second notification 1024 ticks (1 s) later with one extra revolution
publishes the finite-difference speed merged with the retained power. -/
theorem c3_csc_speed_requires_two_samples_witness :
    ((handle_csc_measurement_data CodecState.init [1, 2, 0, 0, 0, 0, 4]).2 = none ∧
      (handle_csc_measurement_data CodecState.init [1, 2, 0, 0, 0, 0, 4]).1.latest_speed_kmh =
        CodecState.init.latest_speed_kmh) ∧
    (handle_csc_measurement_data (⟨some 100, some 1000, 250, 0, 0⟩ : CodecState)
        [1, 101, 0, 0, 0, 232, 7]).2 =
      some ⟨(⟨some 100, some 1000, 250, 0, 0⟩ : CodecState).latest_power_w,
            (⟨some 100, some 1000, 250, 0, 0⟩ : CodecState).latest_cadence_rpm,
            ((1 : ℤ) : ℚ) / (((1024 : ℤ) : ℚ) / 1024) * wheel_circumference_m * (36 / 10), 0⟩ :=
  ⟨(c3_csc_speed_requires_two_samples CodecState.init [1, 2, 0, 0, 0, 0, 4]).1 rfl,
   (c3_csc_speed_requires_two_samples (⟨some 100, some 1000, 250, 0, 0⟩ : CodecState)
      [1, 101, 0, 0, 0, 232, 7]).2 100 1000 rfl rfl (by decide) (by decide)
      1 1024 (by decide) (by decide) (by decide) (by decide)⟩

/-- C4 counterexample: `power_to_speed` is not monotone in power. At grade 0
and total mass 85 kg, an input of 42.85 W yields a strictly greater speed
than 42.9 W: the smaller target passes the 0.1 W early-exit test one Newton
iteration earlier and keeps a larger overshoot. -/
theorem c4_monotonicity_counterexample :
    (857 / 20 : ℚ) < 429 / 10 ∧
    power_to_speed (429 / 10) 0 85 < power_to_speed (857 / 20) 0 85 :=
  of_decide_eq_true (by with_unfolding_all rfl)

/-- C4 (amended): `power_to_speed` returns exactly 0.0 for every
`power_w ≤ 0` (any grade, any mass), and its result is always non-negative,
so monotonicity holds whenever the smaller power is non-positive; full
monotonicity in power fails (see the counterexample). -/
theorem c4_power_to_speed_amended (p1 p2 grade_pct total_mass_kg : ℚ)
    (h : p1 ≤ 0) :
    power_to_speed p1 grade_pct total_mass_kg = 0 ∧
    power_to_speed p1 grade_pct total_mass_kg ≤ power_to_speed p2 grade_pct total_mass_kg := by
  have h1 : power_to_speed p1 grade_pct total_mass_kg = 0 := by
    simp [power_to_speed, h]
  refine ⟨h1, ?_⟩
  rw [h1]
  unfold power_to_speed
  split
  · exact le_refl 0
  · exact le_max_left 0 _

/-- C4 witness: the amended statement at power 0 versus 100 W on flat ground
with 85 kg. -/
theorem c4_power_to_speed_amended_witness :
    power_to_speed 0 0 85 = 0 ∧ power_to_speed 0 0 85 ≤ power_to_speed 100 0 85 :=
  c4_power_to_speed_amended 0 100 0 85 (le_refl 0)

/-- C7: across consecutive SIM-loop ticks the smoothed gradient maintained in
`last_gradient` changes by at most 1.0 percentage point, for every sequence
of route-derived target grades, however large the instantaneous jump. -/
theorem c7_sim_smoothing_bound (targets : ℕ → ℚ) (t : ℕ) :
    |sim_gradient_seq targets (t + 1) - sim_gradient_seq targets t| ≤ 1 := by
  show |smooth_gradient (targets t) (sim_gradient_seq targets t) 1 -
        sim_gradient_seq targets t| ≤ 1
  set T := targets t
  set c := sim_gradient_seq targets t
  by_cases h1 : |T - c| ≤ 1
  · simp [smooth_gradient, h1]
  · by_cases h2 : 0 < T - c
    · simp [smooth_gradient, h1, h2]
    · simp [smooth_gradient, h1, h2]

/-- C8 counterexample: the Cycling-Power decoder reads power as a signed
16-bit value, so the frame `[0x00, 0x00, 0xCE, 0xFF]` (flags 0, power
0xFFCE = -50) is delivered to the callback as a reading with
`power_w = -50 < 0`, refuting the claim that every delivered reading has
non-negative power. -/
theorem c8_negative_power_counterexample :
    (handle_cycling_power_data CodecState.init [0, 0, 206, 255]).2 =
      some ⟨-50, 0, 0, 0⟩ ∧ ¬ (0 : ℚ) ≤ -50 :=
  of_decide_eq_true (by with_unfolding_all rfl)

/-- C8 (amended): every reading delivered by any of the three decoders, for
every input byte sequence and every prior state whose retained speed and
cadence are non-negative, has non-negative cadence, speed and distance, and
each decoder step preserves the non-negativity of the retained speed and
cadence (so the property holds along every run from the initial state).
Non-negativity of the power field fails: the Cycling-Power decoder decodes
power as signed 16-bit and can deliver a negative value, which subsequent
CSC-merged readings also carry. -/
theorem c8_readings_nonneg_amended (s : CodecState) (data : List ℕ)
    (hs : 0 ≤ s.latest_speed_kmh) (hc : 0 ≤ s.latest_cadence_rpm) :
    (∀ r : Reading,
      (handle_cycling_power_data s data).2 = some r ∨
        (handle_csc_measurement_data s data).2 = some r ∨
          (handle_wahoo_data s data).2 = some r →
      0 ≤ r.cadence_rpm ∧ 0 ≤ r.speed_kmh ∧ 0 ≤ r.distance_m) ∧
    (0 ≤ (handle_cycling_power_data s data).1.latest_speed_kmh ∧
      0 ≤ (handle_cycling_power_data s data).1.latest_cadence_rpm) ∧
    (0 ≤ (handle_csc_measurement_data s data).1.latest_speed_kmh ∧
      0 ≤ (handle_csc_measurement_data s data).1.latest_cadence_rpm) ∧
    (0 ≤ (handle_wahoo_data s data).1.latest_speed_kmh ∧
      0 ≤ (handle_wahoo_data s data).1.latest_cadence_rpm) := by
  obtain ⟨hcsc1, hcsc2, hcsc3⟩ := csc_step_nonneg s data hs hc
  have hpow : ∀ r : Reading, (handle_cycling_power_data s data).2 = some r →
      0 ≤ r.cadence_rpm ∧ 0 ≤ r.speed_kmh ∧ 0 ≤ r.distance_m := by
    intro r h
    rcases handle_cycling_power_data_cases s data with hcase | hcase <;> rw [hcase] at h
    · simp at h
    · simp only [Option.some.injEq] at h
      subst h
      exact ⟨hc, hs, le_refl 0⟩
  have hwah : ∀ r : Reading, (handle_wahoo_data s data).2 = some r →
      0 ≤ r.cadence_rpm ∧ 0 ≤ r.speed_kmh ∧ 0 ≤ r.distance_m := by
    intro r h
    rcases handle_wahoo_data_cases s data with hcase | hcase <;> rw [hcase] at h
    · simp at h
    · simp only [Option.some.injEq] at h
      subst h
      refine ⟨by positivity, ?_, le_refl 0⟩
      have : (0 : ℚ) ≤ (le16 data 4 : ℚ) := by positivity
      positivity
  refine ⟨?_, ?_, ⟨hcsc2, hcsc3⟩, ?_⟩
  · intro r h
    rcases h with h | h | h
    · exact hpow r h
    · exact hcsc1 r h
    · exact hwah r h
  · rcases handle_cycling_power_data_cases s data with hcase | hcase <;> rw [hcase]
    · exact ⟨hs, hc⟩
    · exact ⟨hs, hc⟩
  · rcases handle_wahoo_data_cases s data with hcase | hcase <;> rw [hcase]
    · exact ⟨hs, hc⟩
    · exact ⟨hs, hc⟩

/-- C8 witness: the amended statement from the fresh decoder state on an
empty notification. -/
theorem c8_readings_nonneg_amended_witness :
    (∀ r : Reading,
      (handle_cycling_power_data CodecState.init []).2 = some r ∨
        (handle_csc_measurement_data CodecState.init []).2 = some r ∨
          (handle_wahoo_data CodecState.init []).2 = some r →
      0 ≤ r.cadence_rpm ∧ 0 ≤ r.speed_kmh ∧ 0 ≤ r.distance_m) ∧
    (0 ≤ (handle_cycling_power_data CodecState.init []).1.latest_speed_kmh ∧
      0 ≤ (handle_cycling_power_data CodecState.init []).1.latest_cadence_rpm) ∧
    (0 ≤ (handle_csc_measurement_data CodecState.init []).1.latest_speed_kmh ∧
      0 ≤ (handle_csc_measurement_data CodecState.init []).1.latest_cadence_rpm) ∧
    (0 ≤ (handle_wahoo_data CodecState.init []).1.latest_speed_kmh ∧
      0 ≤ (handle_wahoo_data CodecState.init []).1.latest_cadence_rpm) :=
  c8_readings_nonneg_amended CodecState.init [] (le_refl 0) (le_refl 0)

/-- C9 counterexample: with a held transport object whose connection has
dropped, `disconnect` takes the not-connected path and returns without
clearing the stored device address and name, contradicting the claim that
they are always cleared even when no live transport connection exists. -/
theorem c9_disconnect_counterexample :
    (disconnect c9_stale_state false).device_address = some "AA:BB:CC:DD:EE:FF" ∧
    (disconnect c9_stale_state false).device_name = some "KICKR SNAP" := by
  decide

/-- C9 (amended): `disconnect` is idempotent, and whenever a live transport
connection exists it clears the client, address and name regardless of
whether the transport disconnect raises; with no live connection it leaves
the stored address and name untouched. -/
theorem c9_disconnect_amended (s : ClientState) (r r1 : Bool) :
    disconnect (disconnect s r) r1 = disconnect s r ∧
    (s.client = some true →
      (disconnect s r).client = none ∧
      (disconnect s r).device_address = none ∧
      (disconnect s r).device_name = none) := by
  constructor
  · by_cases h : s.client = some true
    · simp [disconnect, ClientState.is_connected, h]
    · simp [disconnect, ClientState.is_connected, h]
  · intro h
    simp [disconnect, ClientState.is_connected, h]

/-- C9 witness: the amended statement on a live connected state. -/
theorem c9_disconnect_amended_witness :
    disconnect (disconnect ⟨some true, some "AA:BB:CC:DD:EE:FF", some "KICKR SNAP", none⟩ true) false =
      disconnect ⟨some true, some "AA:BB:CC:DD:EE:FF", some "KICKR SNAP", none⟩ true ∧
    ((disconnect ⟨some true, some "AA:BB:CC:DD:EE:FF", some "KICKR SNAP", none⟩ true).client = none ∧
     (disconnect ⟨some true, some "AA:BB:CC:DD:EE:FF", some "KICKR SNAP", none⟩ true).device_address = none ∧
     (disconnect ⟨some true, some "AA:BB:CC:DD:EE:FF", some "KICKR SNAP", none⟩ true).device_name = none) :=
  ⟨(c9_disconnect_amended _ true false).1, (c9_disconnect_amended _ true false).2 rfl⟩

/-- C10: `update_metrics` called with a keyword that is not a `RideMetrics`
field — such as `resistance_scale` or `ghost_distance_m` — raises no error
and stores nothing for that keyword: the call is indistinguishable from a
call with no keyword arguments at all, because only keys passing the
`hasattr` test are written. -/
theorem c10_update_metrics_unknown_key :
    "resistance_scale" ∉ rideMetricsFields ∧
    "ghost_distance_m" ∉ rideMetricsFields ∧
    ∀ (s : RideStateM) (k : String) (v now : ℚ), k ∉ rideMetricsFields →
      update_metrics s [(k, v)] now = update_metrics s [] now := by
  refine ⟨by decide, by decide, ?_⟩
  intro s k v now h
  have hk : ("speed_kmh" == k) = false := by
    refine beq_eq_false_iff_ne.mpr ?_
    intro e
    exact h (e ▸ (by decide : ("speed_kmh" : String) ∈ rideMetricsFields))
  simp [update_metrics, List.lookup, hk, h]

/-- C5 counterexample: the claim fails over sequences that include vendor
frames. A vendor frame carrying power 200 W is delivered as a reading with
power 200, but it never updates the merge aggregate; the next CSC-derived
reading therefore reports the stale merged power 0 — the power field of the
delivered stream does not retain its previous value and resets to zero. -/
theorem c5_merge_counterexample :
    (handle_wahoo_data CodecState.init [200, 0, 80, 0, 232, 3]).2.map Reading.power_w =
      some 200 ∧
    ((handle_csc_measurement_data
        (handle_csc_measurement_data
          (handle_wahoo_data CodecState.init [200, 0, 80, 0, 232, 3]).1
          [1, 0, 0, 0, 0, 0, 0]).1
        [1, 1, 0, 0, 0, 0, 4]).2.map Reading.power_w = some 0) ∧
    (0 : ℚ) ≠ 200 :=
  of_decide_eq_true (by with_unfolding_all rfl)

/-- C5 (amended): last-known-value merge semantics hold for the SIG decoders,
which share the latest-value aggregate: a Cycling-Power frame followed by a
CSC frame yields a merged reading with the new finite-difference speed, the
power decoded from the Cycling-Power frame, and the cadence unchanged from
its retained value. The vendor decoder publishes its own frame's fields
without touching the aggregate and is excluded. -/
theorem c5_merge_amended (s : CodecState) (dp dc : List ℕ)
    (hp : 4 ≤ dp.length)
    (r0 t0 : ℕ) (hr : s.last_wheel_revs = some r0) (ht : s.last_wheel_time = some t0)
    (hlen : 7 ≤ dc.length) (hflag : dc.getD 0 0 % 2 = 1)
    (rd td : ℤ)
    (hrdeq : rd = (le32 dc 1 : ℤ) - (r0 : ℤ))
    (htdeq : td = if (le16 dc 5 : ℤ) - (t0 : ℤ) < 0
        then (le16 dc 5 : ℤ) - (t0 : ℤ) + 65536 else (le16 dc 5 : ℤ) - (t0 : ℤ))
    (hrdpos : 0 < rd) (htdpos : 0 < td) :
    (handle_csc_measurement_data (handle_cycling_power_data s dp).1 dc).2 =
      some ⟨(sint16 (le16 dp 2) : ℚ), s.latest_cadence_rpm,
            (rd : ℚ) / ((td : ℚ) / 1024) * wheel_circumference_m * (36 / 10), 0⟩ := by
  have hs1 : (handle_cycling_power_data s dp).1 =
      { s with latest_power_w := (sint16 (le16 dp 2) : ℚ) } := by
    simp [handle_cycling_power_data, Nat.not_lt.mpr hp]
  rw [hs1]
  rw [csc_publish_formula { s with latest_power_w := (sint16 (le16 dp 2) : ℚ) }
    dc r0 t0 hr ht hlen hflag rd td hrdeq htdeq hrdpos htdpos]

/-- C5 witness: the amended merge statement on a concrete Cycling-Power frame
(power 200 W) followed by a concrete CSC frame (one revolution in 1024
ticks). -/
theorem c5_merge_amended_witness :
    (handle_csc_measurement_data
        (handle_cycling_power_data (⟨some 0, some 0, 0, 0, 0⟩ : CodecState) [0, 0, 200, 0]).1
        [1, 1, 0, 0, 0, 0, 4]).2 =
      some ⟨(sint16 (le16 [0, 0, 200, 0] 2) : ℚ),
            (⟨some 0, some 0, 0, 0, 0⟩ : CodecState).latest_cadence_rpm,
            ((1 : ℤ) : ℚ) / (((1024 : ℤ) : ℚ) / 1024) * wheel_circumference_m * (36 / 10), 0⟩ :=
  c5_merge_amended (⟨some 0, some 0, 0, 0, 0⟩ : CodecState) [0, 0, 200, 0]
    [1, 1, 0, 0, 0, 0, 4] (by decide) 0 0 rfl rfl (by decide) (by decide)
    1 1024 (by decide) (by decide) (by decide) (by decide)

/-- C6: `connect` selects the protocol with fixed priority over the
advertised services: FTMS present selects FTMS even when the Wahoo service
is also present; otherwise the Wahoo proprietary service selects the vendor
protocol; otherwise the client is disconnected, the call returns
`(false, "No FTMS or Wahoo service found")` and the session is left
Disconnected (no client, no stored address or name). -/
theorem c6_connect_protocol_priority (s : ClientState) (address name : String)
    (services : List String) :
    (FTMS_SERVICE_UUID ∈ services →
      (connect s address name services).1.protocol = some "ftms" ∧
      (connect s address name services).2 = (true, "")) ∧
    (FTMS_SERVICE_UUID ∉ services → WAHOO_SERVICE_UUID ∈ services →
      (connect s address name services).1.protocol = some "wahoo" ∧
      (connect s address name services).2 = (true, "")) ∧
    (FTMS_SERVICE_UUID ∉ services → WAHOO_SERVICE_UUID ∉ services →
      (connect s address name services).1.client = none ∧
      (connect s address name services).1.device_address = none ∧
      (connect s address name services).1.device_name = none ∧
      (connect s address name services).2 = (false, "No FTMS or Wahoo service found")) := by
  refine ⟨fun hf => ?_, fun hf hw => ?_, fun hf hw => ?_⟩
  · simp [connect, hf]
  · simp [connect, hf, hw]
  · simp [connect, disconnect, ClientState.is_connected, hf, hw]

/-- C6 witness: the three protocol-selection scenarios at concrete service
lists — both services, Wahoo only, and none. -/
theorem c6_connect_protocol_priority_witness :
    ((connect ClientState.init "AA:BB:CC:DD:EE:FF" "KICKR"
        [FTMS_SERVICE_UUID, WAHOO_SERVICE_UUID]).1.protocol = some "ftms" ∧
      (connect ClientState.init "AA:BB:CC:DD:EE:FF" "KICKR"
        [FTMS_SERVICE_UUID, WAHOO_SERVICE_UUID]).2 = (true, "")) ∧
    ((connect ClientState.init "AA:BB:CC:DD:EE:FF" "KICKR"
        [WAHOO_SERVICE_UUID]).1.protocol = some "wahoo" ∧
      (connect ClientState.init "AA:BB:CC:DD:EE:FF" "KICKR"
        [WAHOO_SERVICE_UUID]).2 = (true, "")) ∧
    ((connect ClientState.init "AA:BB:CC:DD:EE:FF" "KICKR" []).1.client = none ∧
      (connect ClientState.init "AA:BB:CC:DD:EE:FF" "KICKR" []).1.device_address = none ∧
      (connect ClientState.init "AA:BB:CC:DD:EE:FF" "KICKR" []).1.device_name = none ∧
      (connect ClientState.init "AA:BB:CC:DD:EE:FF" "KICKR" []).2 =
        (false, "No FTMS or Wahoo service found")) :=
  ⟨(c6_connect_protocol_priority ClientState.init "AA:BB:CC:DD:EE:FF" "KICKR"
      [FTMS_SERVICE_UUID, WAHOO_SERVICE_UUID]).1 (by decide),
   (c6_connect_protocol_priority ClientState.init "AA:BB:CC:DD:EE:FF" "KICKR"
      [WAHOO_SERVICE_UUID]).2.1 (by decide) (by decide),
   (c6_connect_protocol_priority ClientState.init "AA:BB:CC:DD:EE:FF" "KICKR" []).2.2
      (by decide) (by decide)⟩

/-- C10 witness: an `update_metrics` call writing `resistance_scale` is a
no-op relative to an empty update. -/
theorem c10_update_metrics_unknown_key_witness :
    update_metrics ⟨RideMetrics.init, none⟩ [("resistance_scale", 1)] 5 =
      update_metrics ⟨RideMetrics.init, none⟩ [] 5 :=
  c10_update_metrics_unknown_key.2.2 _ _ _ _ (by decide)

end CrankTUI
